import Mathlib

/-!
Verification development for the "maker-demo" collage application.

The source is a small React app with:
- `DraggableImage.tsx`: touch/mouse gesture handlers that drag, pinch-scale
  and pinch-rotate a fixed overlay ("Bolhat");
- `CollageCanvas.tsx`: wheel scaling, discrete scale/rotation buttons, a
  continuous-rotation interval, and an export projector (`handleSave`) that
  re-projects the display-space transform into original-image pixel space;
- `ImageCollageApp.tsx`: the transform record and its initial value.

JavaScript numbers are modelled as rationals (`ℚ`) wherever the source code
performs only field operations and comparisons; the two genuinely real-valued
helpers (`Math.sqrt` in `getDistance`, `Math.atan2` in `getAngle`) are
modelled over `ℝ` in the touch-event layer.
-/

namespace MakerDemo

variable {α : Type}

/-- The loop `while (r >= 360) r -= 360;` from the rotation handlers in
`CollageCanvas.tsx` (clockwise button onClick, continuous-rotation tick) and
`DraggableImage.tsx` (`handleTouchMove`). -/
def wrapDown [LinearOrderedField α] [FloorRing α] (r : α) : α :=
  if h : 360 ≤ r then wrapDown (r - 360) else r
termination_by (⌈r / 360⌉).toNat
decreasing_by
  have h1 : (r - 360) / 360 = r / 360 - 1 := by ring
  have h2 : (0 : ℤ) < ⌈r / 360⌉ := by
    refine Int.ceil_pos.mpr ?_
    have h360 : (0 : α) < 360 := by norm_num
    exact div_pos (lt_of_lt_of_le h360 h) h360
  rw [h1, Int.ceil_sub_one]
  omega

/-- The loop `while (r < 0) r += 360;` from the rotation handlers in
`CollageCanvas.tsx` (counter-clockwise button onClick, continuous-rotation
tick) and `DraggableImage.tsx` (`handleTouchMove`). -/
def wrapUp [LinearOrderedField α] [FloorRing α] (r : α) : α :=
  if h : r < 0 then wrapUp (r + 360) else r
termination_by (⌈-r / 360⌉).toNat
decreasing_by
  have h1 : -(r + 360) / 360 = -r / 360 - 1 := by ring
  have h2 : (0 : ℤ) < ⌈-r / 360⌉ := by
    refine Int.ceil_pos.mpr ?_
    have h360 : (0 : α) < 360 := by norm_num
    exact div_pos (by linarith) h360
  rw [h1, Int.ceil_sub_one]
  omega

/-- The loop `while (angleDelta > 180) angleDelta -= 360;` from
`handleTouchMove` in `DraggableImage.tsx`. -/
def wrapDown180 [LinearOrderedField α] [FloorRing α] (d : α) : α :=
  if h : 180 < d then wrapDown180 (d - 360) else d
termination_by (⌈(d - 180) / 360⌉).toNat
decreasing_by
  have h1 : (d - 360 - 180) / 360 = (d - 180) / 360 - 1 := by ring
  have h2 : (0 : ℤ) < ⌈(d - 180) / 360⌉ := by
    refine Int.ceil_pos.mpr ?_
    have h360 : (0 : α) < 360 := by norm_num
    exact div_pos (by linarith) h360
  rw [h1, Int.ceil_sub_one]
  omega

/-- The loop `while (angleDelta < -180) angleDelta += 360;` from
`handleTouchMove` in `DraggableImage.tsx`. -/
def wrapUp180 [LinearOrderedField α] [FloorRing α] (d : α) : α :=
  if h : d < -180 then wrapUp180 (d + 360) else d
termination_by (⌈(-180 - d) / 360⌉).toNat
decreasing_by
  have h1 : (-180 - (d + 360)) / 360 = (-180 - d) / 360 - 1 := by ring
  have h2 : (0 : ℤ) < ⌈(-180 - d) / 360⌉ := by
    refine Int.ceil_pos.mpr ?_
    have h360 : (0 : α) < 360 := by norm_num
    exact div_pos (by linarith) h360
  rw [h1, Int.ceil_sub_one]
  omega

variable [LinearOrderedField α] [FloorRing α]

/-- `handleTouchMove`'s two-loop rotation normalization: first
`while (newRotation < 0) newRotation += 360;`, then
`while (newRotation >= 360) newRotation -= 360;`. Also the body of the
continuous-rotation interval tick in `CollageCanvas.tsx`. -/
def normalize360 (r : α) : α := wrapDown (wrapUp r)

/-- `handleTouchMove`'s two-loop angle-delta normalization: first
`while (angleDelta > 180) angleDelta -= 360;`, then
`while (angleDelta < -180) angleDelta += 360;`. -/
def normalizeDelta (d : α) : α := wrapUp180 (wrapDown180 d)

theorem wrapDown_lt (r : α) : wrapDown r < 360 := by
  rw [wrapDown.eq_def]
  split
  · exact wrapDown_lt (r - 360)
  · linarith [not_le.mp (by assumption)]
termination_by (⌈r / 360⌉).toNat
decreasing_by
  have h1 : (r - 360) / 360 = r / 360 - 1 := by ring
  have h2 : (0 : ℤ) < ⌈r / 360⌉ := by
    refine Int.ceil_pos.mpr ?_
    have h360 : (0 : α) < 360 := by norm_num
    exact div_pos (lt_of_lt_of_le h360 (by assumption)) h360
  rw [h1, Int.ceil_sub_one]
  omega

theorem wrapDown_nonneg (r : α) (hr : 0 ≤ r) : 0 ≤ wrapDown r := by
  rw [wrapDown.eq_def]
  split
  · exact wrapDown_nonneg (r - 360) (by linarith [show (360:α) ≤ r from by assumption])
  · exact hr
termination_by (⌈r / 360⌉).toNat
decreasing_by
  have h1 : (r - 360) / 360 = r / 360 - 1 := by ring
  have h2 : (0 : ℤ) < ⌈r / 360⌉ := by
    refine Int.ceil_pos.mpr ?_
    have h360 : (0 : α) < 360 := by norm_num
    exact div_pos (lt_of_lt_of_le h360 (by assumption)) h360
  rw [h1, Int.ceil_sub_one]
  omega

theorem wrapDown_eq_self (r : α) (hr : r < 360) : wrapDown r = r := by
  rw [wrapDown.eq_def]
  split
  · linarith [show (360:α) ≤ r from by assumption]
  · rfl

theorem wrapUp_nonneg (r : α) : 0 ≤ wrapUp r := by
  rw [wrapUp.eq_def]
  split
  · exact wrapUp_nonneg (r + 360)
  · exact not_lt.mp (by assumption)
termination_by (⌈-r / 360⌉).toNat
decreasing_by
  have h1 : -(r + 360) / 360 = -r / 360 - 1 := by ring
  have h2 : (0 : ℤ) < ⌈-r / 360⌉ := by
    refine Int.ceil_pos.mpr ?_
    have h360 : (0 : α) < 360 := by norm_num
    exact div_pos (by linarith [show r < 0 from by assumption]) h360
  rw [h1, Int.ceil_sub_one]
  omega

theorem wrapUp_lt (r : α) (hr : r < 360) : wrapUp r < 360 := by
  rw [wrapUp.eq_def]
  split
  · exact wrapUp_lt (r + 360) (by linarith [show r < 0 from by assumption])
  · exact hr
termination_by (⌈-r / 360⌉).toNat
decreasing_by
  have h1 : -(r + 360) / 360 = -r / 360 - 1 := by ring
  have h2 : (0 : ℤ) < ⌈-r / 360⌉ := by
    refine Int.ceil_pos.mpr ?_
    have h360 : (0 : α) < 360 := by norm_num
    exact div_pos (by linarith [show r < 0 from by assumption]) h360
  rw [h1, Int.ceil_sub_one]
  omega

theorem wrapUp_eq_self (r : α) (hr : 0 ≤ r) : wrapUp r = r := by
  rw [wrapUp.eq_def]
  split
  · linarith [show r < 0 from by assumption]
  · rfl

theorem normalize360_nonneg (r : α) : 0 ≤ normalize360 r :=
  wrapDown_nonneg _ (wrapUp_nonneg r)

theorem normalize360_lt (r : α) : normalize360 r < 360 :=
  wrapDown_lt _

theorem wrapDown180_le (d : α) : wrapDown180 d ≤ 180 := by
  rw [wrapDown180.eq_def]
  split
  · exact wrapDown180_le (d - 360)
  · exact not_lt.mp (by assumption)
termination_by (⌈(d - 180) / 360⌉).toNat
decreasing_by
  have h1 : (d - 360 - 180) / 360 = (d - 180) / 360 - 1 := by ring
  have h2 : (0 : ℤ) < ⌈(d - 180) / 360⌉ := by
    refine Int.ceil_pos.mpr ?_
    have h360 : (0 : α) < 360 := by norm_num
    exact div_pos (by linarith [show (180:α) < d from by assumption]) h360
  rw [h1, Int.ceil_sub_one]
  omega

theorem wrapUp180_ge (d : α) : -180 ≤ wrapUp180 d := by
  rw [wrapUp180.eq_def]
  split
  · exact wrapUp180_ge (d + 360)
  · exact not_lt.mp (by assumption)
termination_by (⌈(-180 - d) / 360⌉).toNat
decreasing_by
  have h1 : (-180 - (d + 360)) / 360 = (-180 - d) / 360 - 1 := by ring
  have h2 : (0 : ℤ) < ⌈(-180 - d) / 360⌉ := by
    refine Int.ceil_pos.mpr ?_
    have h360 : (0 : α) < 360 := by norm_num
    exact div_pos (by linarith [show d < -180 from by assumption]) h360
  rw [h1, Int.ceil_sub_one]
  omega

theorem wrapUp180_le (d : α) (hd : d ≤ 180) : wrapUp180 d ≤ 180 := by
  rw [wrapUp180.eq_def]
  split
  · exact wrapUp180_le (d + 360) (by linarith [show d < -180 from by assumption])
  · exact hd
termination_by (⌈(-180 - d) / 360⌉).toNat
decreasing_by
  have h1 : (-180 - (d + 360)) / 360 = (-180 - d) / 360 - 1 := by ring
  have h2 : (0 : ℤ) < ⌈(-180 - d) / 360⌉ := by
    refine Int.ceil_pos.mpr ?_
    have h360 : (0 : α) < 360 := by norm_num
    exact div_pos (by linarith [show d < -180 from by assumption]) h360
  rw [h1, Int.ceil_sub_one]
  omega

theorem wrapDown_step (r : α) (h : 360 ≤ r) : wrapDown r = wrapDown (r - 360) := by
  rw [wrapDown.eq_def]
  exact dif_pos h

theorem wrapUp_step (r : α) (h : r < 0) : wrapUp r = wrapUp (r + 360) := by
  rw [wrapUp.eq_def]
  exact dif_pos h

theorem wrapDown180_step (d : α) (h : 180 < d) : wrapDown180 d = wrapDown180 (d - 360) := by
  rw [wrapDown180.eq_def]
  exact dif_pos h

theorem wrapUp180_step (d : α) (h : d < -180) : wrapUp180 d = wrapUp180 (d + 360) := by
  rw [wrapUp180.eq_def]
  exact dif_pos h

theorem wrapDown180_eq_self (d : α) (hd : d ≤ 180) : wrapDown180 d = d := by
  rw [wrapDown180.eq_def]
  exact dif_neg (not_lt.mpr hd)

theorem wrapUp180_eq_self (d : α) (hd : -180 ≤ d) : wrapUp180 d = d := by
  rw [wrapUp180.eq_def]
  exact dif_neg (not_lt.mpr hd)

theorem normalizeDelta_ge (d : α) : -180 ≤ normalizeDelta d :=
  wrapUp180_ge _

theorem normalizeDelta_le (d : α) : normalizeDelta d ≤ 180 :=
  wrapUp180_le _ (wrapDown180_le d)

/-- The transform record `BolhatState` from `types/collage.ts`: top-left
position of the overlay in display pixels, uniform scale multiplier, and
rotation in degrees. -/
structure BolhatState where
  x : ℚ
  y : ℚ
  scale : ℚ
  rotation : ℚ
deriving DecidableEq

/-- The initial transform from `ImageCollageApp.tsx`:
`{ x: 200, y: 200, scale: 3, rotation: 0 }`. -/
def initialBolhatState : BolhatState :=
  { x := 200, y := 200, scale := 3, rotation := 0 }

/-- Spec-side clamp: `clamp(value, lo, hi)` restricts `value` to `[lo, hi]`. -/
def clamp (value lo hi : ℚ) : ℚ := max lo (min hi value)

/-- The pinch-scale update from `handleTouchMove` in `DraggableImage.tsx`:
`Math.max(0.1, Math.min(10, initialScale * (currentDistance / initialDistance)))`. -/
def pinchScale (initialScale currentDistance initialDistance : ℚ) : ℚ :=
  max 0.1 (min 10 (initialScale * (currentDistance / initialDistance)))

/-- The pinch-rotation update from `handleTouchMove` in `DraggableImage.tsx`:
the angle delta `currentAngle - initialAngle` run through the two
`±360` while-loops, added to the snapshotted rotation, and the sum run
through the two `0..360` while-loops. -/
def pinchRotation (initialRotation currentAngle initialAngle : ℚ) : ℚ :=
  normalize360 (initialRotation + normalizeDelta (currentAngle - initialAngle))

/-- One public transform-updating operation. Parameters stand for the event
data (pointer coordinates, wheel delta) and for the gesture accumulators
(`dragStart`, pinch snapshots) captured at gesture start; they are
universally quantified, which covers every value those accumulators can
actually hold in a run. -/
inductive Op where
  | mouseMove (clientX clientY dragStartX dragStartY : ℚ)
  | touchDragMove (touchX touchY dragStartX dragStartY : ℚ)
  | pinchMove (initialScale initialRotation currentDistance initialDistance
      currentAngle initialAngle : ℚ)
  | wheelTick (deltaY : ℚ)
  | scaleUpClick
  | scaleDownClick
  | rotateCcwClick
  | rotateCwClick
  | rotationTick (left : Bool)

/-- The transform update performed by each operation, read off the
corresponding handler in `DraggableImage.tsx` / `CollageCanvas.tsx`. -/
def step (s : BolhatState) : Op → BolhatState
  | .mouseMove clientX clientY dragStartX dragStartY =>
      { s with x := clientX - dragStartX, y := clientY - dragStartY }
  | .touchDragMove touchX touchY dragStartX dragStartY =>
      { s with x := touchX - dragStartX, y := touchY - dragStartY }
  | .pinchMove initialScale initialRotation currentDistance initialDistance
      currentAngle initialAngle =>
      if 0 < initialDistance then
        { s with scale := pinchScale initialScale currentDistance initialDistance,
                 rotation := pinchRotation initialRotation currentAngle initialAngle }
      else s
  | .wheelTick deltaY =>
      let scaleDelta : ℚ := if 0 < deltaY then -0.1 else 0.1
      { s with scale := max 0.1 (min 10 (s.scale + scaleDelta)) }
  | .scaleUpClick => { s with scale := min 10 (s.scale + 0.2) }
  | .scaleDownClick => { s with scale := max 0.1 (s.scale - 0.2) }
  | .rotateCcwClick => { s with rotation := wrapUp (s.rotation - 1) }
  | .rotateCwClick => { s with rotation := wrapDown (s.rotation + 1) }
  | .rotationTick left =>
      { s with rotation := normalize360 (if left then s.rotation - 1 else s.rotation + 1) }

/-- The clockwise rotation button's onClick from `CollageCanvas.tsx`:
`rotation + 1` followed by `while (newRotation >= 360) newRotation -= 360;`. -/
def rotateCwClick (rotation : ℚ) : ℚ := wrapDown (rotation + 1)

/-- The documented range invariant: `scale ∈ [0.1, 10]`, `rotation ∈ [0, 360)`. -/
def transformInvariant (s : BolhatState) : Prop :=
  0.1 ≤ s.scale ∧ s.scale ≤ 10 ∧ 0 ≤ s.rotation ∧ s.rotation < 360

/-- The background's displayed geometry under `object-cover`, computed by
`handleSave` in `CollageCanvas.tsx` (lines 107-124). -/
structure CoverFit where
  displayedImageWidth : ℚ
  displayedImageHeight : ℚ
  offsetX : ℚ
  offsetY : ℚ
deriving DecidableEq

/-- The cover-fit branch of `handleSave`: aspect-ratio comparison, then
height-fit with horizontal crop or width-fit with vertical crop. -/
def coverFit (originalWidth originalHeight canvasDisplayWidth canvasDisplayHeight : ℚ) :
    CoverFit :=
  let backgroundAspectRatio := originalWidth / originalHeight
  let canvasAspectRatio := canvasDisplayWidth / canvasDisplayHeight
  if backgroundAspectRatio > canvasAspectRatio then
    let displayedImageHeight := canvasDisplayHeight
    let displayedImageWidth := canvasDisplayHeight * backgroundAspectRatio
    { displayedImageWidth := displayedImageWidth,
      displayedImageHeight := displayedImageHeight,
      offsetX := (displayedImageWidth - canvasDisplayWidth) / 2,
      offsetY := 0 }
  else
    let displayedImageWidth := canvasDisplayWidth
    let displayedImageHeight := canvasDisplayWidth / backgroundAspectRatio
    { displayedImageWidth := displayedImageWidth,
      displayedImageHeight := displayedImageHeight,
      offsetX := 0,
      offsetY := (displayedImageHeight - canvasDisplayHeight) / 2 }

/-- `w-24 h-24` = 96px, the fixed on-screen overlay footprint
(`bolhatDisplaySize` in `handleSave`). -/
def bolhatDisplaySize : ℚ := 96

/-- The overlay's placement in original-image pixel space as computed by
`handleSave` (lines 143-161). -/
structure Projection where
  originalCenterX : ℚ
  originalCenterY : ℚ
  originalBolhatSize : ℚ
deriving DecidableEq

/-- The projection step of `handleSave`: cover-fit geometry, per-axis scale
factors, display-space center, crop-offset shift, and final size. -/
def project (originalWidth originalHeight canvasDisplayWidth canvasDisplayHeight : ℚ)
    (bolhatState : BolhatState) : Projection :=
  let cf := coverFit originalWidth originalHeight canvasDisplayWidth canvasDisplayHeight
  let scaleX := originalWidth / cf.displayedImageWidth
  let scaleY := originalHeight / cf.displayedImageHeight
  let displayBolhatCenterX := bolhatState.x + bolhatDisplaySize / 2
  let displayBolhatCenterY := bolhatState.y + bolhatDisplaySize / 2
  let relativeCenterX := displayBolhatCenterX + cf.offsetX
  let relativeCenterY := displayBolhatCenterY + cf.offsetY
  { originalCenterX := relativeCenterX * scaleX,
    originalCenterY := relativeCenterY * scaleY,
    originalBolhatSize := bolhatDisplaySize * bolhatState.scale * scaleX }

/-- An image element that has been loaded, with its natural dimensions. -/
structure LoadedImage where
  naturalWidth : ℚ
  naturalHeight : ℚ
deriving DecidableEq

/-- Outcome of the save operation: either the early-return alert
(`'Image loading is not complete.'`) or a rendered composite whose overlay
placement is the computed projection. -/
inductive SaveOutcome where
  | alertIncomplete
  | rendered (p : Projection)
deriving DecidableEq

/-- The guard and projection of `handleSave` in `CollageCanvas.tsx`:
`if (!uploadedImage || !backgroundImageRef.current || !bolhatImageRef.current
|| !watermarkImageRef.current) { alert(...); return; }`, then the
coordinate projection. `handleSave` never calls `onUpdateBolhatState`, so
the transform record is untouched in every branch. -/
def handleSave (uploadedImage : Option String) (backgroundImg : Option LoadedImage)
    (bolhatImg : Option Unit) (watermarkImg : Option Unit)
    (canvasDisplayWidth canvasDisplayHeight : ℚ) (bolhatState : BolhatState) :
    SaveOutcome :=
  match uploadedImage, backgroundImg, bolhatImg, watermarkImg with
  | some _, some bg, some _, some _ =>
      SaveOutcome.rendered
        (project bg.naturalWidth bg.naturalHeight canvasDisplayWidth canvasDisplayHeight
          bolhatState)
  | _, _, _, _ => SaveOutcome.alertIncomplete

/-! ## Touch-event layer

`DraggableImage.tsx` computes inter-pointer distances with `Math.sqrt` and
angles with `Math.atan2`, so this layer is real-valued. -/

/-- `TouchData` from `DraggableImage.tsx`: one tracked pointer. -/
structure TouchData where
  identifier : ℤ
  x : ℝ
  y : ℝ

/-- The display transform as read and written by the touch handlers. The
pinch branch writes real-valued scale/rotation, so all four fields are real
here; `BolhatState` above is its rational restriction. -/
structure BolhatStateR where
  x : ℝ
  y : ℝ
  scale : ℝ
  rotation : ℝ

/-- The gesture accumulators of `DraggableImage.tsx`: `isLongPress`,
`dragStart`, `touches`, and the pinch snapshots set on two-finger touch
start. -/
structure GestureState where
  isLongPress : Bool
  dragStart : ℝ × ℝ
  touches : List TouchData
  initialDistance : ℝ
  initialAngle : ℝ
  initialScale : ℝ
  initialRotation : ℝ

/-- `getDistance` from `DraggableImage.tsx`:
`Math.sqrt(dx * dx + dy * dy)`. -/
noncomputable def getDistance (touch1 touch2 : TouchData) : ℝ :=
  Real.sqrt ((touch1.x - touch2.x) * (touch1.x - touch2.x) +
    (touch1.y - touch2.y) * (touch1.y - touch2.y))

/-- `getAngle` from `DraggableImage.tsx`:
`Math.atan2(touch2.y - touch1.y, touch2.x - touch1.x) * 180 / Math.PI`,
with `atan2(y, x)` rendered as the argument of the complex number `x + y·i`. -/
noncomputable def getAngle (touch1 touch2 : TouchData) : ℝ :=
  Complex.arg ⟨touch2.x - touch1.x, touch2.y - touch1.y⟩ * 180 / Real.pi

/-- `handleTouchStart`: stores the new touch list; one touch enters
immediate drag mode and records `dragStart`; two touches snapshot distance,
angle, scale and rotation. -/
noncomputable def handleTouchStart (newTouches : List TouchData)
    (bolhatState : BolhatStateR) (g : GestureState) : GestureState :=
  let g := { g with touches := newTouches }
  match newTouches with
  | [t] =>
      { g with isLongPress := true,
               dragStart := (t.x - bolhatState.x, t.y - bolhatState.y) }
  | [t1, t2] =>
      { g with isLongPress := false,
               initialDistance := getDistance t1 t2,
               initialAngle := getAngle t1 t2,
               initialScale := bolhatState.scale,
               initialRotation := bolhatState.rotation }
  | _ => g

/-- `handleTouchMove`: the single-pointer drag branch (guarded by
`isLongPress` and both touch lists having length 1), the two-pointer
pinch/rotate branch (guarded by both touch lists having length 2 and
`initialDistance > 0`), and the trailing `setTouches(currentTouches)`. -/
noncomputable def handleTouchMove (currentTouches : List TouchData)
    (g : GestureState) (bolhatState : BolhatStateR) :
    GestureState × BolhatStateR :=
  let newState :=
    match currentTouches, g.touches with
    | [currentTouch], [_] =>
        if g.isLongPress then
          { bolhatState with x := currentTouch.x - g.dragStart.1,
                             y := currentTouch.y - g.dragStart.2 }
        else bolhatState
    | [c1, c2], [_, _] =>
        if 0 < g.initialDistance then
          let currentDistance := getDistance c1 c2
          let currentAngle := getAngle c1 c2
          let scaleRatio := currentDistance / g.initialDistance
          let newScale := max 0.1 (min 10 (g.initialScale * scaleRatio))
          let angleDelta := normalizeDelta (currentAngle - g.initialAngle)
          let newRotation := normalize360 (g.initialRotation + angleDelta)
          { bolhatState with scale := newScale, rotation := newRotation }
        else bolhatState
    | _, _ => bolhatState
  ({ g with touches := currentTouches }, newState)

/-- `handleTouchEnd`: stores the remaining touch list; zero remaining
touches reset all gesture accumulators; exactly one remaining touch
re-enters drag mode re-anchored on that touch. -/
noncomputable def handleTouchEnd (remainingTouches : List TouchData)
    (bolhatState : BolhatStateR) (g : GestureState) : GestureState :=
  let g := { g with touches := remainingTouches }
  match remainingTouches with
  | [] =>
      { g with isLongPress := false, initialDistance := 0, initialAngle := 0,
               initialScale := 1, initialRotation := 0 }
  | [t] =>
      { g with isLongPress := true, initialDistance := 0,
               dragStart := (t.x - bolhatState.x, t.y - bolhatState.y) }
  | _ => g

/-! ## Claim theorems -/

/-- Claim C2, counterexample to the stated delta range: with the initial
inter-pointer angle 10° and the current angle −170° (both inside atan2's
output range (−180°, 180°]), the raw delta is −180, and the two while-loops
leave it at −180, which is NOT in the claimed normalized range (−180, 180]:
the lower endpoint is attained. -/
theorem c2_delta_not_in_Ioc :
    normalizeDelta ((-170 : ℚ) - 10) = -180 ∧
    ¬ (-180 < normalizeDelta ((-170 : ℚ) - 10)) := by
  have h1 : normalizeDelta ((-170 : ℚ) - 10) = -180 := by
    unfold normalizeDelta
    rw [wrapDown180_eq_self ((-170 : ℚ) - 10) (by norm_num)]
    rw [wrapUp180_eq_self ((-170 : ℚ) - 10) (by norm_num)]
    norm_num
  refine ⟨h1, ?_⟩
  rw [h1]
  norm_num

/-- Claim C2 (amended): for every two-pointer move with both inter-pointer
angles in atan2's range (−180, 180], the while-loop normalization puts the
rotation delta in the closed interval [−180, 180] (the endpoint −180 is
attainable, so the claimed half-open interval (−180, 180] must be widened),
the resulting rotation `initialRotation + delta` normalized by the 0..360
while-loops lies in [0, 360), and the wrap-boundary example holds: initial
angle 170°, current angle −170° gives delta 20, not −340. -/
theorem c2_delta_normalization (initialAngle currentAngle initialRotation : ℚ)
    (h1 : -180 < initialAngle) (h2 : initialAngle ≤ 180)
    (h3 : -180 < currentAngle) (h4 : currentAngle ≤ 180) :
    -180 ≤ normalizeDelta (currentAngle - initialAngle) ∧
    normalizeDelta (currentAngle - initialAngle) ≤ 180 ∧
    0 ≤ pinchRotation initialRotation currentAngle initialAngle ∧
    pinchRotation initialRotation currentAngle initialAngle < 360 ∧
    normalizeDelta ((-170 : ℚ) - 170) = 20 := by
  refine ⟨normalizeDelta_ge _, normalizeDelta_le _, normalize360_nonneg _,
    normalize360_lt _, ?_⟩
  unfold normalizeDelta
  rw [wrapDown180_eq_self ((-170 : ℚ) - 170) (by norm_num)]
  rw [wrapUp180_step ((-170 : ℚ) - 170) (by norm_num)]
  rw [show ((-170 : ℚ) - 170 + 360) = 20 by norm_num]
  rw [wrapUp180_eq_self (20 : ℚ) (by norm_num)]

/-- Witness for `c2_delta_normalization` at initial angle 170°, current
angle −170°, initial rotation 0. -/
theorem c2_delta_normalization_witness :
    -180 ≤ normalizeDelta ((-170 : ℚ) - 170) ∧
    normalizeDelta ((-170 : ℚ) - 170) ≤ 180 ∧
    0 ≤ pinchRotation 0 (-170 : ℚ) 170 ∧
    pinchRotation 0 (-170 : ℚ) 170 < 360 ∧
    normalizeDelta ((-170 : ℚ) - 170) = 20 :=
  c2_delta_normalization 170 (-170) 0 (by decide) (by decide) (by decide) (by decide)

/-- Claim C3: in the two-pointer move branch (which the source only enters
when `initialDistance > 0`), the resulting scale equals
`clamp(initialScale * (currentDistance / initialDistance), 0.1, 10)` and
hence lies in [0.1, 10], for every distance ratio. -/
theorem c3_pinch_scale_clamped (s : BolhatState)
    (initialScale initialRotation currentDistance initialDistance
      currentAngle initialAngle : ℚ)
    (h : 0 < initialDistance) :
    (step s (Op.pinchMove initialScale initialRotation currentDistance
        initialDistance currentAngle initialAngle)).scale =
      clamp (initialScale * (currentDistance / initialDistance)) 0.1 10 ∧
    0.1 ≤ (step s (Op.pinchMove initialScale initialRotation currentDistance
        initialDistance currentAngle initialAngle)).scale ∧
    (step s (Op.pinchMove initialScale initialRotation currentDistance
        initialDistance currentAngle initialAngle)).scale ≤ 10 := by
  have hstep : (step s (Op.pinchMove initialScale initialRotation currentDistance
      initialDistance currentAngle initialAngle)).scale =
      pinchScale initialScale currentDistance initialDistance := by
    simp [step, if_pos h]
  refine ⟨?_, ?_, ?_⟩
  · rw [hstep]; rfl
  · rw [hstep]; exact le_max_left _ _
  · rw [hstep]
    exact max_le (by norm_num) (min_le_left _ _)

/-- Witness for `c3_pinch_scale_clamped`: a pinch from distance 1 to
distance 2 at snapshot scale 3. -/
theorem c3_pinch_scale_clamped_witness :
    (step initialBolhatState (Op.pinchMove 3 0 2 1 0 0)).scale =
      clamp (3 * ((2 : ℚ) / 1)) 0.1 10 ∧
    0.1 ≤ (step initialBolhatState (Op.pinchMove 3 0 2 1 0 0)).scale ∧
    (step initialBolhatState (Op.pinchMove 3 0 2 1 0 0)).scale ≤ 10 :=
  c3_pinch_scale_clamped initialBolhatState 3 0 2 1 0 0 (by decide)

/-- Claim C4: the cover-fit step: when the background's aspect ratio
exceeds the container's, the image is height-fit and horizontally cropped
(`offsetX = (displayedWidth - containerWidth)/2`, `offsetY = 0`); otherwise
width-fit and vertically cropped (the symmetric swap); and for background
1000×500 with container 500×500 it yields displayed width 1000, displayed
height 500, offsetX 250, offsetY 0. -/
theorem c4_cover_fit (originalWidth originalHeight canvasW canvasH : ℚ) :
    (canvasW / canvasH < originalWidth / originalHeight →
      coverFit originalWidth originalHeight canvasW canvasH =
        { displayedImageWidth := canvasH * (originalWidth / originalHeight),
          displayedImageHeight := canvasH,
          offsetX := (canvasH * (originalWidth / originalHeight) - canvasW) / 2,
          offsetY := 0 }) ∧
    (¬ canvasW / canvasH < originalWidth / originalHeight →
      coverFit originalWidth originalHeight canvasW canvasH =
        { displayedImageWidth := canvasW,
          displayedImageHeight := canvasW / (originalWidth / originalHeight),
          offsetX := 0,
          offsetY := (canvasW / (originalWidth / originalHeight) - canvasH) / 2 }) ∧
    coverFit 1000 500 500 500 =
      { displayedImageWidth := 1000, displayedImageHeight := 500,
        offsetX := 250, offsetY := 0 } := by
  refine ⟨fun h => ?_, fun h => ?_, ?_⟩
  · simp only [coverFit]
    rw [if_pos h]
  · simp only [coverFit]
    rw [if_neg h]
  · norm_num [coverFit]

/-- Witness for `c4_cover_fit`: the height-fit branch taken at the golden
instance, background 1000×500 and container 500×500. -/
theorem c4_cover_fit_witness :
    coverFit 1000 500 500 500 =
      { displayedImageWidth := 500 * ((1000 : ℚ) / 500), displayedImageHeight := 500,
        offsetX := (500 * ((1000 : ℚ) / 500) - 500) / 2, offsetY := 0 } :=
  (c4_cover_fit 1000 500 500 500).1 (by norm_num)

/-- Claim C5: the export projector maps the overlay's display transform to
original-image pixel space by
`center = ((x + 96/2 + offsetX) * scaleX, (y + 96/2 + offsetY) * scaleY)`
and `size = 96 * scale * scaleX`, and at the golden instance (background
1000×500, container 500×500, overlay at (200, 200) with scale 3) it
produces center (498, 248) and size 288. -/
theorem c5_projection_formulas (originalWidth originalHeight canvasW canvasH : ℚ)
    (st : BolhatState) :
    project originalWidth originalHeight canvasW canvasH st =
      { originalCenterX := (st.x + 96 / 2 +
            (coverFit originalWidth originalHeight canvasW canvasH).offsetX) *
          (originalWidth /
            (coverFit originalWidth originalHeight canvasW canvasH).displayedImageWidth),
        originalCenterY := (st.y + 96 / 2 +
            (coverFit originalWidth originalHeight canvasW canvasH).offsetY) *
          (originalHeight /
            (coverFit originalWidth originalHeight canvasW canvasH).displayedImageHeight),
        originalBolhatSize := 96 * st.scale *
          (originalWidth /
            (coverFit originalWidth originalHeight canvasW canvasH).displayedImageWidth) } ∧
    project 1000 500 500 500 { x := 200, y := 200, scale := 3, rotation := 0 } =
      { originalCenterX := 498, originalCenterY := 248, originalBolhatSize := 288 } := by
  constructor
  · rfl
  · norm_num [project, coverFit, bolhatDisplaySize]

/-- Claim C9: when the background and container aspect ratios are equal (and
all dimensions are positive), cover-fit crops nothing — both offsets are
zero — and the per-axis scale factors from displayed size back to original
size coincide. -/
theorem c9_equal_aspect_no_crop (originalWidth originalHeight canvasW canvasH : ℚ)
    (how : 0 < originalWidth) (hoh : 0 < originalHeight)
    (hcw : 0 < canvasW) (hch : 0 < canvasH)
    (har : originalWidth / originalHeight = canvasW / canvasH) :
    (coverFit originalWidth originalHeight canvasW canvasH).offsetX = 0 ∧
    (coverFit originalWidth originalHeight canvasW canvasH).offsetY = 0 ∧
    originalWidth /
        (coverFit originalWidth originalHeight canvasW canvasH).displayedImageWidth =
      originalHeight /
        (coverFit originalWidth originalHeight canvasW canvasH).displayedImageHeight := by
  have hnot : ¬ canvasW / canvasH < originalWidth / originalHeight := by
    rw [har]
    exact lt_irrefl _
  have hcf : coverFit originalWidth originalHeight canvasW canvasH =
      { displayedImageWidth := canvasW,
        displayedImageHeight := canvasW / (originalWidth / originalHeight),
        offsetX := 0,
        offsetY := (canvasW / (originalWidth / originalHeight) - canvasH) / 2 } := by
    simp only [coverFit]
    rw [if_neg hnot]
  have hdh : canvasW / (originalWidth / originalHeight) = canvasH := by
    rw [har]
    field_simp
  refine ⟨by rw [hcf], ?_, ?_⟩
  · rw [hcf]
    simp only
    rw [hdh]
    ring
  · rw [hcf]
    simp only
    rw [hdh]
    rw [div_eq_div_iff hcw.ne' hch.ne']
    rw [div_eq_div_iff hoh.ne' hch.ne'] at har
    linear_combination har

/-- Witness for `c9_equal_aspect_no_crop`: a 500×500 background in a
500×500 container. -/
theorem c9_equal_aspect_no_crop_witness :
    (coverFit 500 500 500 500).offsetX = 0 ∧
    (coverFit 500 500 500 500).offsetY = 0 ∧
    (500 : ℚ) / (coverFit 500 500 500 500).displayedImageWidth =
      500 / (coverFit 500 500 500 500).displayedImageHeight :=
  c9_equal_aspect_no_crop 500 500 500 500 (by decide) (by decide) (by decide)
    (by decide) rfl

theorem step_preserves_invariant (s : BolhatState) (op : Op)
    (h : transformInvariant s) : transformInvariant (step s op) := by
  obtain ⟨hs1, hs2, hr1, hr2⟩ := h
  cases op with
  | mouseMove clientX clientY dsX dsY => exact ⟨hs1, hs2, hr1, hr2⟩
  | touchDragMove tX tY dsX dsY => exact ⟨hs1, hs2, hr1, hr2⟩
  | pinchMove iS iR cD iD cA iA =>
      by_cases hd : 0 < iD
      · simp only [step, if_pos hd]
        exact ⟨le_max_left _ _, max_le (by norm_num) (min_le_left _ _),
          normalize360_nonneg _, normalize360_lt _⟩
      · simp only [step, if_neg hd]
        exact ⟨hs1, hs2, hr1, hr2⟩
  | wheelTick deltaY =>
      exact ⟨le_max_left _ _, max_le (by norm_num) (min_le_left _ _), hr1, hr2⟩
  | scaleUpClick =>
      exact ⟨le_min (by norm_num) (by linarith), min_le_left _ _, hr1, hr2⟩
  | scaleDownClick =>
      exact ⟨le_max_left _ _, max_le (by norm_num) (by linarith), hr1, hr2⟩
  | rotateCcwClick =>
      exact ⟨hs1, hs2, wrapUp_nonneg _, wrapUp_lt _ (by linarith)⟩
  | rotateCwClick =>
      exact ⟨hs1, hs2, wrapDown_nonneg _ (by linarith), wrapDown_lt _⟩
  | rotationTick left =>
      exact ⟨hs1, hs2, normalize360_nonneg _, normalize360_lt _⟩

/-- Claim C1: starting from the initial transform (x=200, y=200, scale=3,
rotation=0), every sequence of public operations — drag moves, pinch/rotate
moves (with arbitrary gesture-snapshot and event parameters, covering every
reachable snapshot), wheel ticks, scale-button clicks, rotation-button
clicks and continuous-rotation interval ticks — keeps scale in [0.1, 10]
and rotation in [0, 360). -/
theorem c1_reachable_invariant (ops : List Op) :
    transformInvariant (ops.foldl step initialBolhatState) := by
  have hinit : transformInvariant initialBolhatState := by
    refine ⟨by norm_num [initialBolhatState], by norm_num [initialBolhatState],
      le_refl 0, by norm_num [initialBolhatState]⟩
  suffices h : ∀ (l : List Op) (s : BolhatState), transformInvariant s →
      transformInvariant (l.foldl step s) from h ops _ hinit
  intro l
  induction l with
  | nil => exact fun s hs => hs
  | cons op t ih => exact fun s hs => ih _ (step_preserves_invariant s op hs)

theorem rotateCwClick_iterate (r : ℚ) (h0 : 0 ≤ r) (h1 : r < 360) :
    ∀ n : ℕ, n ≤ 360 → rotateCwClick^[n] r =
      if r + (n : ℚ) < 360 then r + (n : ℚ) else r + (n : ℚ) - 360 := by
  intro n
  induction n with
  | zero =>
      intro _
      simp only [Function.iterate_zero, id_eq, Nat.cast_zero, add_zero]
      rw [if_pos h1]
  | succ n ih =>
      intro hn
      have hn' : n ≤ 360 := Nat.le_of_succ_le hn
      rw [Function.iterate_succ_apply', ih hn']
      by_cases hc : r + (n : ℚ) < 360
      · rw [if_pos hc]
        unfold rotateCwClick
        by_cases hc2 : r + (n : ℚ) + 1 < 360
        · rw [wrapDown_eq_self _ hc2, if_pos (by push_cast; linarith)]
          push_cast
          ring
        · rw [wrapDown_step _ (by linarith), wrapDown_eq_self _ (by linarith)]
          rw [if_neg (by push_cast; linarith)]
          push_cast
          ring
      · rw [if_neg hc]
        unfold rotateCwClick
        have hn360 : (n : ℚ) ≤ 359 := by
          have hn359 : n ≤ 359 := by omega
          exact_mod_cast hn359
        rw [wrapDown_eq_self _ (by linarith)]
        rw [if_neg (by push_cast; linarith)]
        push_cast
        ring

/-- Claim C6: for every starting rotation in [0, 360), 360 consecutive
clicks of the clockwise rotation button (add 1°, wrap at 360) return the
rotation to its starting value exactly. -/
theorem c6_cw_360_clicks (r : ℚ) (h0 : 0 ≤ r) (h1 : r < 360) :
    rotateCwClick^[360] r = r := by
  have h := rotateCwClick_iterate r h0 h1 360 (le_refl _)
  rw [h, if_neg (by push_cast; linarith)]
  push_cast
  ring

/-- Witness for `c6_cw_360_clicks` at starting rotation 5°. -/
theorem c6_cw_360_clicks_witness : rotateCwClick^[360] (5 : ℚ) = 5 :=
  c6_cw_360_clicks 5 (by decide) (by decide)

/-- Claim C7: lifting the second finger (touch end with one remaining
pointer) re-anchors drag mode on the remaining pointer, so a following
single-pointer move with the pointer still at that position leaves the
overlay's x and y unchanged — the overlay does not jump. -/
theorem c7_lift_finger_no_jump (g : GestureState) (st : BolhatStateR)
    (t : TouchData) :
    ((handleTouchMove [t] (handleTouchEnd [t] st g) st).2).x = st.x ∧
    ((handleTouchMove [t] (handleTouchEnd [t] st g) st).2).y = st.y := by
  simp [handleTouchEnd, handleTouchMove]

/-- Claim C8: if the uploaded background, the overlay sticker, or the
watermark image is unavailable when save is invoked, `handleSave` hits the
alert guard and returns before any rasterization: the outcome is the alert,
never a rendered projection (and `handleSave` never updates the transform
in any branch). -/
theorem c8_save_missing_image_alert (uploadedImage : Option String)
    (backgroundImg : Option LoadedImage) (bolhatImg watermarkImg : Option Unit)
    (canvasW canvasH : ℚ) (st : BolhatState)
    (h : backgroundImg = none ∨ bolhatImg = none ∨ watermarkImg = none) :
    handleSave uploadedImage backgroundImg bolhatImg watermarkImg canvasW canvasH st =
      SaveOutcome.alertIncomplete ∧
    ∀ p : Projection,
      handleSave uploadedImage backgroundImg bolhatImg watermarkImg canvasW canvasH st ≠
        SaveOutcome.rendered p := by
  have halert : handleSave uploadedImage backgroundImg bolhatImg watermarkImg
      canvasW canvasH st = SaveOutcome.alertIncomplete := by
    rcases h with h | h | h
    · subst h
      cases uploadedImage <;> cases bolhatImg <;> cases watermarkImg <;> rfl
    · subst h
      cases uploadedImage <;> cases backgroundImg <;> cases watermarkImg <;> rfl
    · subst h
      cases uploadedImage <;> cases backgroundImg <;> cases bolhatImg <;> rfl
  refine ⟨halert, fun p hp => ?_⟩
  rw [halert] at hp
  exact SaveOutcome.noConfusion hp

/-- Witness for `c8_save_missing_image_alert`: no uploaded background. -/
theorem c8_save_missing_image_alert_witness :
    handleSave none none (some ()) (some ()) 500 500 initialBolhatState =
      SaveOutcome.alertIncomplete :=
  (c8_save_missing_image_alert none none (some ()) (some ()) 500 500
    initialBolhatState (Or.inl rfl)).1

theorem touchMove_two_zero_distance (c1 c2 : TouchData) (g : GestureState)
    (st : BolhatStateR) (h : g.initialDistance = 0) :
    (handleTouchMove [c1, c2] g st).2 = st ∧
    (handleTouchMove [c1, c2] g st).1.initialDistance = 0 := by
  rcases htg : g.touches with _ | ⟨a, _ | ⟨b, _ | _⟩⟩ <;>
    simp [handleTouchMove, htg, h]

/-- Claim C10: if the two pointers of a two-pointer gesture start at
coinciding positions, the stored initial inter-pointer distance is
`sqrt 0 = 0`, so every subsequent two-pointer move event fails the
`initialDistance > 0` guard: the distance-ratio division is never reached
and the transform is left unchanged by every such move. -/
theorem c10_coincident_pointers_safe (t1 t2 : TouchData) (st0 : BolhatStateR)
    (g : GestureState) (moves : List (TouchData × TouchData))
    (hx : t1.x = t2.x) (hy : t1.y = t2.y) :
    (handleTouchStart [t1, t2] st0 g).initialDistance = 0 ∧
    (moves.foldl (fun p m => handleTouchMove [m.1, m.2] p.1 p.2)
        (handleTouchStart [t1, t2] st0 g, st0)).2 = st0 := by
  have hdist : getDistance t1 t2 = 0 := by
    unfold getDistance
    rw [hx, hy]
    simp
  have hstart : (handleTouchStart [t1, t2] st0 g).initialDistance = 0 := by
    simp [handleTouchStart, hdist]
  refine ⟨hstart, ?_⟩
  have key : ∀ (l : List (TouchData × TouchData)) (g' : GestureState)
      (st' : BolhatStateR), g'.initialDistance = 0 →
      (l.foldl (fun p m => handleTouchMove [m.1, m.2] p.1 p.2) (g', st')).2 = st' := by
    intro l
    induction l with
    | nil => exact fun g' st' _ => rfl
    | cons m t ih =>
        intro g' st' h0
        have hm := touchMove_two_zero_distance m.1 m.2 g' st' h0
        rw [List.foldl_cons]
        calc ((t.foldl (fun p m => handleTouchMove [m.1, m.2] p.1 p.2)
                  (handleTouchMove [m.1, m.2] g' st'))).2 =
            (handleTouchMove [m.1, m.2] g' st').2 := ih _ _ hm.2
          _ = st' := hm.1
  exact key moves _ st0 hstart

/-- Witness for `c10_coincident_pointers_safe`: two pointers both at
(5, 7), then one further two-pointer move. -/
theorem c10_coincident_pointers_safe_witness :
    (handleTouchStart [⟨0, 5, 7⟩, ⟨1, 5, 7⟩] ⟨0, 0, 1, 0⟩
        ⟨false, (0, 0), [], 0, 0, 1, 0⟩).initialDistance = 0 ∧
    (([(⟨2, 3, 4⟩, ⟨3, 8, 9⟩)] : List (TouchData × TouchData)).foldl
        (fun p m => handleTouchMove [m.1, m.2] p.1 p.2)
        (handleTouchStart [⟨0, 5, 7⟩, ⟨1, 5, 7⟩] ⟨0, 0, 1, 0⟩
          ⟨false, (0, 0), [], 0, 0, 1, 0⟩,
          (⟨0, 0, 1, 0⟩ : BolhatStateR))).2 = ⟨0, 0, 1, 0⟩ :=
  c10_coincident_pointers_safe ⟨0, 5, 7⟩ ⟨1, 5, 7⟩ ⟨0, 0, 1, 0⟩
    ⟨false, (0, 0), [], 0, 0, 1, 0⟩ [(⟨2, 3, 4⟩, ⟨3, 8, 9⟩)] rfl rfl

end MakerDemo
